import Mathlib

/-!
Verification of the Egress Guard (SSRF protection) and Admission Limiter
(rate limiting) of the metadata-extractor service.

The embedding follows `src/security/ssrf.ts` and the rate-limiting
middleware. Behaviour of external dependencies (the `ipaddr.js` address
library, the WHATWG URL parser, the DNS resolver, the LRU caches) is
modelled semantically: addresses are parsed into an `IPAddr` value, DNS
results are supplied as an environment of `Except`-valued resolver
functions mirroring `Promise.allSettled` outcomes, and the caches are
finite maps.
-/

namespace MetadataExtractor

/-- A parsed IP address: four octets (IPv4) or eight 16-bit parts (IPv6).
This is the semantic value produced by `ipaddr.parse`. -/
inductive IPAddr where
  | v4 (o0 o1 o2 o3 : Nat)
  | v6 (p0 p1 p2 p3 p4 p5 p6 p7 : Nat)
deriving DecidableEq, Repr

/-- Value of a decimal digit character, `none` for non-digits. -/
def decDigitVal (c : Char) : Option Nat :=
  if '0' ≤ c ∧ c ≤ '9' then some (c.toNat - 48) else none

/-- Value of a hexadecimal digit character (either case), `none` otherwise. -/
def hexDigitVal (c : Char) : Option Nat :=
  if '0' ≤ c ∧ c ≤ '9' then some (c.toNat - 48)
  else if 'a' ≤ c ∧ c ≤ 'f' then some (c.toNat - 87)
  else if 'A' ≤ c ∧ c ≤ 'F' then some (c.toNat - 55)
  else none

/-- Split a character list on a separator character; like `String.splitOn`
for a single-character separator. -/
def splitOnChar (sep : Char) : List Char → List (List Char)
  | [] => [[]]
  | c :: cs =>
    let rest := splitOnChar sep cs
    if c = sep then [] :: rest
    else
      match rest with
      | [] => [[c]]
      | g :: gs => (c :: g) :: gs

/-- Parse one dotted-quad octet: 1–3 decimal digits, value at most 255.
Models the decimal octet syntax accepted by `ipaddr.js` (the external
address library); exotic octal/hex octet forms are out of scope. -/
def parseDecOctet (g : List Char) : Option Nat :=
  match g.mapM decDigitVal with
  | none => none
  | some ds =>
    if ds.length = 0 ∨ 3 < ds.length then none
    else
      let n := ds.foldl (fun a d => a * 10 + d) 0
      if n ≤ 255 then some n else none

/-- Parse dotted-quad IPv4 notation `a.b.c.d`. -/
def parseIPv4Chars (cs : List Char) : Option (Nat × Nat × Nat × Nat) :=
  match splitOnChar '.' cs with
  | [g0, g1, g2, g3] =>
    match parseDecOctet g0, parseDecOctet g1, parseDecOctet g2, parseDecOctet g3 with
    | some a, some b, some c, some d => some (a, b, c, d)
    | _, _, _, _ => none
  | _ => none

/-- Parse a group of 1–4 hex digits (one 16-bit IPv6 part). -/
def parseHexGroup (g : List Char) : Option Nat :=
  match g.mapM hexDigitVal with
  | none => none
  | some ds =>
    if ds.length = 0 ∨ 4 < ds.length then none
    else some (ds.foldl (fun a d => a * 16 + d) 0)

/-- Split a character list at the first occurrence of `::`, if any. -/
def splitDoubleColon : List Char → Option (List Char × List Char)
  | ':' :: ':' :: rest => some ([], rest)
  | c :: cs => (splitDoubleColon cs).map (fun p => (c :: p.1, p.2))
  | [] => none

/-- Parse a run of colon-separated IPv6 groups (no `::` inside). When
`allowV4Tail` is set the final group may be an embedded dotted-quad IPv4
address, contributing two 16-bit parts (the transitional notation
`::ffff:127.0.0.1`). -/
def parseV6Chunks (allowV4Tail : Bool) : List (List Char) → Option (List Nat)
  | [] => some []
  | [g] =>
    if allowV4Tail ∧ g.contains '.' then
      match parseIPv4Chars g with
      | some (a, b, c, d) => some [a * 256 + b, c * 256 + d]
      | none => none
    else (parseHexGroup g).map (fun v => [v])
  | g :: rest =>
    match parseHexGroup g, parseV6Chunks allowV4Tail rest with
    | some v, some vs => some (v :: vs)
    | _, _ => none

/-- Parse IPv6 textual notation (RFC 4291 section 2.2, as accepted by
`ipaddr.js`): eight hex groups, at most one `::` zero-compression, and an
optional embedded IPv4 tail. Produces the list of eight 16-bit parts. -/
def parseIPv6Chars (cs : List Char) : Option (List Nat) :=
  match splitDoubleColon cs with
  | some (l, r) =>
    let lchunks := if l.isEmpty then [] else splitOnChar ':' l
    let rchunks := if r.isEmpty then [] else splitOnChar ':' r
    match parseV6Chunks false lchunks, parseV6Chunks true rchunks with
    | some lv, some rv =>
      if lv.length + rv.length ≤ 7 then
        some (lv ++ List.replicate (8 - lv.length - rv.length) 0 ++ rv)
      else none
    | _, _ => none
  | none =>
    match parseV6Chunks true (splitOnChar ':' cs) with
    | some vs => if vs.length = 8 then some vs else none
    | none => none

/-- Model of `ipaddr.parse` composed with `ipaddr.isValid`: parse a string
as an IPv6 literal, else as an IPv4 literal, else fail. -/
def parseIP (s : String) : Option IPAddr :=
  match parseIPv6Chars s.data with
  | some [p0, p1, p2, p3, p4, p5, p6, p7] => some (.v6 p0 p1 p2 p3 p4 p5 p6 p7)
  | some _ => none
  | none =>
    match parseIPv4Chars s.data with
    | some (a, b, c, d) => some (.v4 a b c d)
    | none => none

/-- Model of `ipaddr.isValid`. -/
def ipaddrIsValid (s : String) : Bool := (parseIP s).isSome

/-- Model of `IPv4.prototype.range` of `ipaddr.js`: first matching entry of
its `SpecialRanges` table, in table order. -/
def ipv4Range (o0 o1 o2 o3 : Nat) : String :=
  if o0 = 0 then "unspecified"
  else if o0 = 255 ∧ o1 = 255 ∧ o2 = 255 ∧ o3 = 255 then "broadcast"
  else if 224 ≤ o0 ∧ o0 ≤ 239 then "multicast"
  else if o0 = 169 ∧ o1 = 254 then "linkLocal"
  else if o0 = 127 then "loopback"
  else if o0 = 100 ∧ 64 ≤ o1 ∧ o1 ≤ 127 then "carrierGradeNat"
  else if o0 = 10 ∨ (o0 = 172 ∧ 16 ≤ o1 ∧ o1 ≤ 31) ∨ (o0 = 192 ∧ o1 = 168) then "private"
  else if (o0 = 192 ∧ o1 = 0 ∧ o2 = 0) ∨ (o0 = 192 ∧ o1 = 0 ∧ o2 = 2) ∨
      (o0 = 192 ∧ o1 = 88 ∧ o2 = 99) ∨ (o0 = 198 ∧ (o1 = 18 ∨ o1 = 19)) ∨
      (o0 = 198 ∧ o1 = 51 ∧ o2 = 100) ∨ (o0 = 203 ∧ o1 = 0 ∧ o2 = 113) ∨
      240 ≤ o0 then "reserved"
  else "unicast"

/-- Model of `IPv6.prototype.range` of `ipaddr.js`: first matching entry of
its `SpecialRanges` table, in table order (prefix tests written as
arithmetic on the 16-bit parts). -/
def ipv6Range (p0 p1 p2 p3 p4 p5 p6 p7 : Nat) : String :=
  if p0 = 0 ∧ p1 = 0 ∧ p2 = 0 ∧ p3 = 0 ∧ p4 = 0 ∧ p5 = 0 ∧ p6 = 0 ∧ p7 = 0 then
    "unspecified"
  else if p0 / 64 = 1018 then "linkLocal"
  else if p0 / 256 = 255 then "multicast"
  else if p0 = 0 ∧ p1 = 0 ∧ p2 = 0 ∧ p3 = 0 ∧ p4 = 0 ∧ p5 = 0 ∧ p6 = 0 ∧ p7 = 1 then
    "loopback"
  else if p0 / 512 = 126 then "uniqueLocal"
  else if p0 = 0 ∧ p1 = 0 ∧ p2 = 0 ∧ p3 = 0 ∧ p4 = 0 ∧ p5 = 65535 then "ipv4Mapped"
  else if p0 = 256 ∧ p1 = 0 ∧ p2 = 0 ∧ p3 = 0 then "discard"
  else if p0 = 0 ∧ p1 = 0 ∧ p2 = 0 ∧ p3 = 0 ∧ p4 = 65535 ∧ p5 = 0 then "rfc6145"
  else if p0 = 100 ∧ p1 = 65435 ∧ p2 = 0 ∧ p3 = 0 ∧ p4 = 0 ∧ p5 = 0 then "rfc6052"
  else if p0 = 8194 then "6to4"
  else if p0 = 8193 ∧ p1 = 0 then "teredo"
  else if p0 = 8193 ∧ p1 = 2 ∧ p2 = 0 then "benchmarking"
  else if p0 = 8193 ∧ p1 = 3 then "amt"
  else if p0 = 8193 ∧ p1 = 4 ∧ p2 = 274 then "as112v6"
  else if p0 = 8193 ∧ p1 / 16 = 1 then "deprecated"
  else if p0 = 8193 ∧ p1 / 16 = 2 then "orchid2"
  else if (p0 = 8193 ∧ p1 / 512 = 0) ∨ (p0 = 8193 ∧ p1 = 3512) then "reserved"
  else "unicast"

/-- The forbidden range categories of `ssrf.ts` (`DISALLOWED_IP_RANGES`),
in source order. -/
def DISALLOWED_IP_RANGES : List String :=
  ["unspecified", "broadcast", "multicast", "linkLocal", "loopback", "private",
   "reserved", "carrierGradeNat", "uniqueLocal", "6to4", "teredo",
   "benchmarking", "deprecated", "discard"]

/-- Model of `IPv6.prototype.isIPv4MappedAddress`: the address lies in the
`::ffff:0:0/96` block (equivalently, its range is `ipv4Mapped`). -/
def isIPv4Mapped (p0 p1 p2 p3 p4 p5 : Nat) : Bool :=
  p0 = 0 ∧ p1 = 0 ∧ p2 = 0 ∧ p3 = 0 ∧ p4 = 0 ∧ p5 = 65535

/-- The range category that `isAddressForbidden` tests against the
disallowed set: for an IPv4-mapped IPv6 address, the range of the embedded
IPv4 address (`toIPv4Address().range()`); otherwise the address's own
range. -/
def classifiedRange : IPAddr → String
  | .v4 o0 o1 o2 o3 => ipv4Range o0 o1 o2 o3
  | .v6 p0 p1 p2 p3 p4 p5 p6 p7 =>
    if isIPv4Mapped p0 p1 p2 p3 p4 p5 then
      ipv4Range (p6 / 256) (p6 % 256) (p7 / 256) (p7 % 256)
    else ipv6Range p0 p1 p2 p3 p4 p5 p6 p7

/-- The verdict of `isAddressForbidden` on an already-parsed address. -/
def isParsedAddressForbidden (a : IPAddr) : Bool :=
  DISALLOWED_IP_RANGES.contains (classifiedRange a)

/-- Model of `isAddressForbidden` of `ssrf.ts`: fail closed on unparsable input,
otherwise test the classified range (IPv4-mapped addresses unwrapped)
against `DISALLOWED_IP_RANGES`. -/
def isAddressForbidden (address : String) : Bool :=
  match parseIP address with
  | none => true
  | some parsed => isParsedAddressForbidden parsed

/-- The `::ffff:a.b.c.d` embedding of an IPv4 address into IPv6: parts
`0:0:0:0:0:ffff` followed by the four octets packed into two 16-bit
parts. -/
def ipv4MappedEncoding (o0 o1 o2 o3 : Nat) : IPAddr :=
  .v6 0 0 0 0 0 65535 (o0 * 256 + o1) (o2 * 256 + o3)

/-! ### URL model

A parsed URL exposes the fields `validateUrl` reads: `protocol` (the
lowercased scheme with trailing colon) and `hostname`; `href` stands for
`toString()`. `parseURL` models the WHATWG `new URL` constructor for
absolute URLs: scheme syntax, slash skipping for special schemes, authority
splitting at userinfo/port, host lowercasing, bracketed IPv6 hosts, and
parse failure on an empty host for a special scheme. Host punycode/percent
normalization is out of scope. -/

structure ParsedURL where
  protocol : String
  hostname : String
  href : String
deriving DecidableEq, Repr

/-- Characters allowed in a URL scheme after the initial letter. -/
def isSchemeChar (c : Char) : Bool := c.isAlphanum || c == '+' || c == '-' || c == '.'

/-- Consume scheme characters until the terminating colon. -/
def takeSchemeAux (acc : List Char) : List Char → Option (List Char × List Char)
  | [] => none
  | c :: cs =>
    if c == ':' then some (acc.reverse, cs)
    else if isSchemeChar c then takeSchemeAux (c :: acc) cs
    else none

/-- Split off the scheme of an absolute URL, failing if there is none. -/
def takeScheme : List Char → Option (List Char × List Char)
  | [] => none
  | c :: cs => if c.isAlpha then takeSchemeAux [c] cs else none

/-- The WHATWG special schemes (those parsed with an authority). -/
def SPECIAL_SCHEMES : List String := ["http", "https", "ws", "wss", "ftp", "file"]

/-- Characters terminating the authority component. -/
def isAuthorityDelim (c : Char) : Bool := c == '/' || c == '\\' || c == '?' || c == '#'

/-- The host-and-port part of an authority: everything after the last `@`. -/
def afterLastAt (cs : List Char) : List Char :=
  ((cs.reverse).takeWhile (fun c => c != '@')).reverse

/-- Split a host-and-port into host and port, keeping the brackets of an
IPv6 host (as the WHATWG `hostname` getter does). -/
def splitHostPort (hp : List Char) : Option (List Char × List Char) :=
  match hp with
  | '[' :: rest =>
    let inside := rest.takeWhile (fun c => c != ']')
    match rest.dropWhile (fun c => c != ']') with
    | ']' :: tail =>
      match tail with
      | [] => some ('[' :: (inside ++ [']']), [])
      | ':' :: port => some ('[' :: (inside ++ [']']), port)
      | _ => none
    | _ => none
  | _ =>
    some (hp.takeWhile (fun c => c != ':'),
      match hp.dropWhile (fun c => c != ':') with
      | ':' :: port => port
      | _ => [])

/-- A port is empty or all digits with value at most 65535. -/
def validPort (p : List Char) : Bool :=
  p.isEmpty ||
    (p.all Char.isDigit &&
      decide (p.foldl (fun a c => a * 10 + (c.toNat - 48)) 0 ≤ 65535))

/-- Code points that make a host invalid. -/
def forbiddenHostChar (c : Char) : Bool :=
  c == ' ' || c == '<' || c == '>' || c == '^' || c == '|'

/-- Parse the authority part of a special-scheme URL. -/
def parseAuthority (scheme : String) (allowEmptyHost : Bool) (rest : List Char) :
    Option ParsedURL :=
  let authority := rest.takeWhile (fun c => !(isAuthorityDelim c))
  let path := rest.dropWhile (fun c => !(isAuthorityDelim c))
  match splitHostPort (afterLastAt authority) with
  | none => none
  | some (host, port) =>
    if validPort port then
      if host.any forbiddenHostChar then none
      else
        let hostname := String.mk (host.map Char.toLower)
        if hostname = "" && !allowEmptyHost then none
        else some { protocol := scheme ++ ":", hostname,
                    href := scheme ++ "://" ++ hostname ++ String.mk path }
    else none

/-- Model of the WHATWG `new URL` constructor, as used by `validateUrl`.
For special schemes all slashes after the colon are skipped and an
authority is parsed (so `http:///path` has host `path`, and `http://`
fails); non-special schemes are parsed without an authority. -/
def parseURL (s : String) : Option ParsedURL :=
  match takeScheme s.data with
  | none => none
  | some (schemeCs, rest) =>
    let scheme := String.mk (schemeCs.map Char.toLower)
    if SPECIAL_SCHEMES.contains scheme then
      parseAuthority scheme (scheme == "file") (rest.dropWhile (fun c => c == '/' || c == '\\'))
    else
      some { protocol := scheme ++ ":", hostname := "",
             href := scheme ++ ":" ++ String.mk rest }

/-! ### DNS resolution and cache -/

/-- The addresses contributed by one settled resolution attempt
(`Promise.allSettled` element): its value when fulfilled, nothing when
rejected. -/
def settledAddresses (r : Except String (List String)) : List String :=
  match r with
  | .ok v => v
  | .error _ => []

/-- The error messages contributed by one settled resolution attempt. -/
def settledErrors (r : Except String (List String)) : List String :=
  match r with
  | .ok _ => []
  | .error e => [e]

/-- Model of `Array.prototype.join("; ")`. -/
def joinSemicolon : List String → String
  | [] => ""
  | [e] => e
  | e :: rest => e ++ "; " ++ joinSemicolon rest

/-- Model of `resolveHostAddresses` of `ssrf.ts`, as a function of the two settled
resolver outcomes (A then AAAA): concatenate all fulfilled addresses;
if none, throw an error aggregating the rejection messages (or the fixed
no-records message when both attempts fulfilled empty). -/
def resolveHostAddresses (r4 r6 : Except String (List String)) :
    Except String (List String) :=
  let addresses := settledAddresses r4 ++ settledAddresses r6
  let errors := settledErrors r4 ++ settledErrors r6
  if 0 < addresses.length then .ok addresses
  else .error
    (if 0 < errors.length then joinSemicolon errors
     else "DNS lookup did not return any A or AAAA records")

/-- A DNS environment: the two record lookups of the resolver, giving the
settled outcome of `resolver.resolve4` / `resolver.resolve6` per hostname. -/
structure DnsEnv where
  resolve4 : String → Except String (List String)
  resolve6 : String → Except String (List String)

/-- The DNS cache contents, newest entry first (an association list
standing for the `lru-cache` map; TTL and LRU eviction only remove
entries and are not modelled). -/
abbrev DnsCache := List (String × List String)

/-- Lookup in the DNS cache (`dnsCache.get`). -/
def dnsCacheGet (c : DnsCache) (h : String) : Option (List String) :=
  (c.find? (fun e => e.1 == h)).map (fun e => e.2)

/-- Insertion into the DNS cache (`dnsCache.set`): the new binding shadows any older one. -/
def dnsCacheSet (c : DnsCache) (h : String) (v : List String) : DnsCache :=
  (h, v) :: c

/-! ### validateUrl -/

/-- The `UrlValidationResult` type of `ssrf.ts`. -/
inductive UrlValidationResult where
  | ok (url : ParsedURL)
  | denied (reason : String)
deriving DecidableEq, Repr

/-- Denial reason for an unparsable URL (the WHATWG constructor's
`TypeError` message is the fixed string `Invalid URL`). -/
def invalidUrlReason (urlCandidate : String) : String :=
  "Invalid URL \"" ++ urlCandidate ++ "\": Invalid URL"

/-- Denial reason for a scheme other than http/https. -/
def unsupportedProtocolReason (u : ParsedURL) : String :=
  "Unsupported protocol for URL: " ++ u.href

/-- Denial reason for a URL without hostname. -/
def hostnameMissingReason (u : ParsedURL) : String :=
  "URL " ++ u.href ++ " must include a hostname"

/-- Denial reason for a forbidden IP-literal hostname. -/
def forbiddenIpReason (hostname : String) : String :=
  "Refusing to access forbidden IP address " ++ hostname

/-- Denial reason for a failed DNS resolution. -/
def failedResolveReason (hostname msg : String) : String :=
  "Failed to resolve hostname " ++ hostname ++ ": " ++ msg

/-- Denial reason of the empty-records branch. -/
def dnsEmptyReason (hostname : String) : String :=
  "DNS lookup for " ++ hostname ++ " did not return any addresses"

/-- Denial reason for a forbidden resolved address. -/
def forbiddenResolvedReason (record hostname : String) : String :=
  "Refusing to access forbidden resolved address " ++ record ++ " for host " ++ hostname

/-- The loop over resolved records (`ssrf.ts` lines 181–190): deny at the
first forbidden address, allow when none is. -/
def scanRecords (hostname : String) (u : ParsedURL) : List String → UrlValidationResult
  | [] => .ok u
  | r :: rest =>
    if isAddressForbidden r then .denied (forbiddenResolvedReason r hostname)
    else scanRecords hostname u rest

/-- The post-lookup step of `validateUrl` (`ssrf.ts` lines 173–190): the
empty-records guard, then the scan of all resolved addresses. -/
def checkResolvedRecords (hostname : String) (u : ParsedURL) (records : List String) :
    UrlValidationResult :=
  if records.length = 0 then .denied (dnsEmptyReason hostname)
  else scanRecords hostname u records

/-- Model of `validateUrl` of `ssrf.ts`, with the DNS environment and cache passed
explicitly; returns the result together with the cache left behind. -/
def validateUrl (env : DnsEnv) (cache : DnsCache) (urlCandidate : String) :
    UrlValidationResult × DnsCache :=
  match parseURL urlCandidate with
  | none => (.denied (invalidUrlReason urlCandidate), cache)
  | some parsedUrl =>
    if parsedUrl.protocol ≠ "http:" ∧ parsedUrl.protocol ≠ "https:" then
      (.denied (unsupportedProtocolReason parsedUrl), cache)
    else if parsedUrl.hostname = "" then
      (.denied (hostnameMissingReason parsedUrl), cache)
    else if ipaddrIsValid parsedUrl.hostname then
      if isAddressForbidden parsedUrl.hostname then
        (.denied (forbiddenIpReason parsedUrl.hostname), cache)
      else (.ok parsedUrl, cache)
    else
      match dnsCacheGet cache parsedUrl.hostname with
      | some records => (checkResolvedRecords parsedUrl.hostname parsedUrl records, cache)
      | none =>
        match resolveHostAddresses (env.resolve4 parsedUrl.hostname)
            (env.resolve6 parsedUrl.hostname) with
        | .error e => (.denied (failedResolveReason parsedUrl.hostname e), cache)
        | .ok records =>
          (checkResolvedRecords parsedUrl.hostname parsedUrl records,
           dnsCacheSet cache parsedUrl.hostname records)

/-! ### Admission Limiter (rate limiting middleware) -/

/-- One step decision of the rate limiter: proceed to the handler, or
answer 429 with a `retryAfter` hint in seconds. -/
inductive RateDecision where
  | allowed
  | denied (retryAfter : Int)
deriving DecidableEq, Repr

/-- The rate-limit store contents, newest entry first (an association list
standing for the `lru-cache` map of timestamp lists per IP). -/
abbrev RateLimitStore := List (String × List Int)

/-- Lookup in the rate-limit store (`rateLimitStore.get`). -/
def rateStoreGet (c : RateLimitStore) (ip : String) : Option (List Int) :=
  (c.find? (fun e => e.1 == ip)).map (fun e => e.2)

/-- Insertion into the rate-limit store (`rateLimitStore.set`): the new binding shadows any older one. -/
def rateStoreSet (c : RateLimitStore) (ip : String) (v : List Int) : RateLimitStore :=
  (ip, v) :: c

/-- Rate limiter configuration (`RATE_LIMIT_REQUESTS`,
`RATE_LIMIT_WINDOW_MS`; defaults 5 and 60000). -/
structure RateConfig where
  maxRequests : Nat
  windowMs : Int
deriving DecidableEq, Repr

/-- Model of `Math.ceil(x / d)` for integer `x` and positive integer `d`. -/
def jsCeilDiv (x d : Int) : Int := -((-x) / d)

/-- Model of `Math.min(...l)` for a nonempty list; the empty case (only reachable
with `maxRequests = 0`, where JavaScript yields `Infinity`) is mapped to 0. -/
def listMin : List Int → Int
  | [] => 0
  | t :: ts => ts.foldl min t

/-- The identity's stored timestamps filtered to the current window
(`timestamps` after the `filter` in the middleware). -/
def trimmedTimestamps (cfg : RateConfig) (store : RateLimitStore) (ip : String)
    (now : Int) : List Int :=
  ((rateStoreGet store ip).getD []).filter (fun t => now - cfg.windowMs < t)

/-- One call of the rate-limiting middleware for identity `ip` at time
`now`: deny with a retry hint when the in-window count has reached the
limit (leaving the store as it was), otherwise append `now` and persist. -/
def rateLimiterStep (cfg : RateConfig) (store : RateLimitStore) (ip : String)
    (now : Int) : RateDecision × RateLimitStore :=
  let timestamps := trimmedTimestamps cfg store ip now
  if cfg.maxRequests ≤ timestamps.length then
    let oldestInWindow := listMin timestamps
    let retryAfter := jsCeilDiv (oldestInWindow + cfg.windowMs - now) 1000
    (.denied retryAfter, store)
  else
    (.allowed, rateStoreSet store ip (timestamps ++ [now]))

/-- The well-formedness invariant of the DNS cache: every entry holds a
nonempty address list. -/
def CacheWellFormed (c : DnsCache) : Prop :=
  ∀ h l, dnsCacheGet c h = some l → l ≠ []

/-! ### Concrete evaluation checks -/

example : parseIP "127.0.0.1" = some (.v4 127 0 0 1) := by decide
example : parseIP "::ffff:127.0.0.1" = some (.v6 0 0 0 0 0 65535 32512 1) := by decide
example : parseIP "::1" = some (.v6 0 0 0 0 0 0 0 1) := by decide
example : parseIP "fc00::1" = some (.v6 64512 0 0 0 0 0 0 1) := by decide
example : parseIP "not an ip" = none := by decide
example : parseIP "1.2.3.4.5" = none := by decide
example : isAddressForbidden "127.0.0.1" = true := by decide
example : isAddressForbidden "::ffff:127.0.0.1" = true := by decide
example : isAddressForbidden "93.184.216.34" = false := by decide
example : isAddressForbidden "2606:4700::6810:84e5" = false := by decide
example : isAddressForbidden "10.0.0.1" = true := by decide
example : isAddressForbidden "169.254.0.1" = true := by decide
example : parseURL "http://example.com/x" =
    some ⟨"http:", "example.com", "http://example.com/x"⟩ := by decide
example : parseURL "https://EXAMPLE.com:8080/a?b" =
    some ⟨"https:", "example.com", "https://example.com/a?b"⟩ := by decide
example : parseURL "ftp://host/x" = some ⟨"ftp:", "host", "ftp://host/x"⟩ := by decide
example : parseURL "not a url" = none := by decide
example : parseURL "http://" = none := by decide
example : parseURL "http://127.0.0.1/" =
    some ⟨"http:", "127.0.0.1", "http://127.0.0.1/"⟩ := by decide
example : parseURL "http://[::1]/" = some ⟨"http:", "[::1]", "http://[::1]/"⟩ := by decide
example : parseURL "mailto:x@y" = some ⟨"mailto:", "", "mailto:x@y"⟩ := by decide
example :
    rateLimiterStep ⟨5, 60000⟩ [("a", [0, 1, 2, 3, 4])] "a" 5 =
      (.denied 60, [("a", [0, 1, 2, 3, 4])]) := by decide
example :
    rateLimiterStep ⟨5, 60000⟩ [("a", [0, 1, 2, 3, 4])] "a" 60005 =
      (.allowed, [("a", [60005]), ("a", [0, 1, 2, 3, 4])]) := by decide
example :
    validateUrl ⟨fun _ => .ok ["93.184.216.34"], fun _ => .error "none"⟩ []
      "http://example.com/x" =
    (.ok ⟨"http:", "example.com", "http://example.com/x"⟩,
      [("example.com", ["93.184.216.34"])]) := by decide
example :
    (validateUrl ⟨fun _ => .ok ["93.184.216.34", "10.0.0.1"], fun _ => .error "none"⟩ []
      "http://example.com/x").1 =
    .denied (forbiddenResolvedReason "10.0.0.1" "example.com") := by decide

/-! ### Helper lemmas -/

lemma data_append (s t : String) : (s ++ t).data = s.data ++ t.data := rfl

lemma append_head_ne (a b x y : String) (ca cb : Char) (la lb : List Char)
    (ha : a.data = ca :: la) (hb : b.data = cb :: lb) (hne : ca ≠ cb) :
    a ++ x ≠ b ++ y := by
  intro he
  have h1 : (a ++ x).data.head? = some ca := by rw [data_append, ha]; rfl
  have h2 : (b ++ y).data.head? = some cb := by rw [data_append, hb]; rfl
  rw [he, h2] at h1
  exact hne (Option.some.inj h1).symm

lemma append_head2_ne (a b x y : String) (c0 c1 d0 d1 : Char) (la lb : List Char)
    (ha : a.data = c0 :: c1 :: la) (hb : b.data = d0 :: d1 :: lb) (hne : c1 ≠ d1) :
    a ++ x ≠ b ++ y := by
  intro he
  have h1 : ((a ++ x).data.drop 1).head? = some c1 := by rw [data_append, ha]; rfl
  have h2 : ((b ++ y).data.drop 1).head? = some d1 := by rw [data_append, hb]; rfl
  rw [he, h2] at h1
  exact hne (Option.some.inj h1).symm

lemma foldl_min_mem (ts : List Int) (a : Int) : ts.foldl min a = a ∨ ts.foldl min a ∈ ts := by
  induction ts generalizing a with
  | nil => simp
  | cons b bs ih =>
    simp only [List.foldl]
    rcases ih (min a b) with h | h
    · rcases min_choice a b with hm | hm
      · exact Or.inl (h.trans hm)
      · exact Or.inr (by rw [h, hm]; exact List.mem_cons_self b bs)
    · exact Or.inr (List.mem_cons_of_mem b h)

lemma listMin_mem (l : List Int) (h : l ≠ []) : listMin l ∈ l := by
  match l with
  | t :: ts =>
    show ts.foldl min t ∈ t :: ts
    rcases foldl_min_mem ts t with h1 | h1
    · rw [h1]; exact List.mem_cons_self t ts
    · exact List.mem_cons_of_mem t h1

lemma resolve_ok_nonempty (r4 r6 : Except String (List String)) (l : List String)
    (h : resolveHostAddresses r4 r6 = .ok l) : l ≠ [] := by
  simp only [resolveHostAddresses] at h
  split at h
  · rename_i hc
    cases h
    exact List.ne_nil_of_length_pos hc
  · simp at h

/-! ### C2: IPv4-mapped IPv6 equivalence -/

/-- C2: classifying the `::ffff:a` IPv4-mapped IPv6 encoding of an IPv4
address gives exactly the same forbidden/allowed verdict as classifying the
IPv4 address itself. -/
theorem c2_ipv4_mapped_same_verdict (o0 o1 o2 o3 : Nat)
    (h0 : o0 < 256) (h1 : o1 < 256) (h2 : o2 < 256) (h3 : o3 < 256) :
    isParsedAddressForbidden (ipv4MappedEncoding o0 o1 o2 o3) =
      isParsedAddressForbidden (.v4 o0 o1 o2 o3) := by
  have e6a : (o0 * 256 + o1) / 256 = o0 := by omega
  have e6b : (o0 * 256 + o1) % 256 = o1 := by omega
  have e7a : (o2 * 256 + o3) / 256 = o2 := by omega
  have e7b : (o2 * 256 + o3) % 256 = o3 := by omega
  simp [isParsedAddressForbidden, ipv4MappedEncoding, classifiedRange, isIPv4Mapped,
    e6a, e6b, e7a, e7b]

/-- Witness for C2 at `127.0.0.1`: the mapped form `::ffff:127.0.0.1` gets
the same (denied) verdict as `127.0.0.1`, also at the string level. -/
theorem c2_witness :
    isParsedAddressForbidden (ipv4MappedEncoding 127 0 0 1) =
      isParsedAddressForbidden (.v4 127 0 0 1) ∧
    isAddressForbidden "::ffff:127.0.0.1" = true ∧
    isAddressForbidden "127.0.0.1" = true :=
  ⟨c2_ipv4_mapped_same_verdict 127 0 0 1 (by decide) (by decide) (by decide) (by decide),
   by decide, by decide⟩

/-! ### C3: classifier fail-closed and forbidden categories -/

/-- C3: `isAddressForbidden` returns true on every unparsable string (fail
closed); on a parsed address it returns true exactly when the classified
range (IPv4-mapped addresses unwrapped first) is one of the fourteen
documented forbidden categories, and false otherwise. -/
theorem c3_classifier_categories (s : String) :
    (parseIP s = none → isAddressForbidden s = true) ∧
    (∀ a, parseIP s = some a →
      (isAddressForbidden s = true ↔
        classifiedRange a ∈ ["unspecified", "broadcast", "multicast", "linkLocal",
          "loopback", "private", "reserved", "carrierGradeNat", "uniqueLocal",
          "6to4", "teredo", "benchmarking", "deprecated", "discard"])) := by
  constructor
  · intro h; simp [isAddressForbidden, h]
  · intro a ha
    simp [isAddressForbidden, ha, isParsedAddressForbidden, DISALLOWED_IP_RANGES,
      List.contains, List.elem_eq_mem]

/-- Witness for C3: a forbidden private address, a public address, and an
unparsable string. -/
theorem c3_witness :
    isAddressForbidden "10.0.0.1" = true ∧
    isAddressForbidden "93.184.216.34" = false ∧
    isAddressForbidden "///" = true :=
  ⟨((c3_classifier_categories "10.0.0.1").2 (.v4 10 0 0 1) (by decide)).mpr (by decide),
   by decide,
   (c3_classifier_categories "///").1 (by decide)⟩

/-! ### C6: persistence of the trimmed list (corrected) -/

/-- Counterexample to C6 as stated: a denied call does **not** persist the
trimmed timestamp list. At `now = 100000` with window 60000 the stored
stale timestamp `30000` lies outside the window; the call is denied and the
store afterwards still holds the untrimmed list, not the trimmed one. -/
theorem c6_counterexample :
    rateLimiterStep ⟨5, 60000⟩ [("a", [96000, 97000, 98000, 99000, 99500, 30000])]
        "a" 100000 =
      (.denied 56, [("a", [96000, 97000, 98000, 99000, 99500, 30000])]) ∧
    rateStoreGet (rateLimiterStep ⟨5, 60000⟩
        [("a", [96000, 97000, 98000, 99000, 99500, 30000])] "a" 100000).2 "a" ≠
      some (trimmedTimestamps ⟨5, 60000⟩
        [("a", [96000, 97000, 98000, 99000, 99500, 30000])] "a" 100000) := by
  decide

/-- C6 amended: the trimmed timestamp list is persisted only on allowed
calls; a denied call leaves the store exactly as it was (the trim on a
denied call affects only the local copy). -/
theorem c6_trim_persistence (cfg : RateConfig) (store : RateLimitStore) (ip : String)
    (now : Int) :
    (∀ r, (rateLimiterStep cfg store ip now).1 = .denied r →
      (rateLimiterStep cfg store ip now).2 = store) ∧
    ((rateLimiterStep cfg store ip now).1 = .allowed →
      (rateLimiterStep cfg store ip now).2 =
        rateStoreSet store ip (trimmedTimestamps cfg store ip now ++ [now])) := by
  unfold rateLimiterStep
  by_cases h : cfg.maxRequests ≤ (trimmedTimestamps cfg store ip now).length <;>
    simp [h]

/-- Witness for the amended C6 at the counterexample input: the denied call
leaves the store unchanged. -/
theorem c6_witness :
    (rateLimiterStep ⟨5, 60000⟩ [("a", [96000, 97000, 98000, 99000, 99500, 30000])]
        "a" 100000).2 =
      [("a", [96000, 97000, 98000, 99000, 99500, 30000])] :=
  (c6_trim_persistence ⟨5, 60000⟩ [("a", [96000, 97000, 98000, 99000, 99500, 30000])]
    "a" 100000).1 56 (by decide)

/-! ### C7: sliding-window decision -/

/-- C7: the limiter drops the identity's timestamps outside the window
(`trimmedTimestamps` keeps exactly those `> now - windowMs`), denies
exactly when the remaining count has reached `maxRequests` with
`retryAfter = ceil((min remaining + windowMs - now) / 1000)`, which is
strictly positive, and otherwise appends `now`, persists, and allows. -/
theorem c7_sliding_window (cfg : RateConfig) (store : RateLimitStore) (ip : String)
    (now : Int) (hmax : 1 ≤ cfg.maxRequests) :
    (cfg.maxRequests ≤ (trimmedTimestamps cfg store ip now).length →
      rateLimiterStep cfg store ip now =
        (.denied (jsCeilDiv (listMin (trimmedTimestamps cfg store ip now) +
            cfg.windowMs - now) 1000), store) ∧
      0 < jsCeilDiv (listMin (trimmedTimestamps cfg store ip now) +
            cfg.windowMs - now) 1000) ∧
    ((trimmedTimestamps cfg store ip now).length < cfg.maxRequests →
      rateLimiterStep cfg store ip now =
        (.allowed, rateStoreSet store ip (trimmedTimestamps cfg store ip now ++ [now]))) := by
  constructor
  · intro h
    constructor
    · unfold rateLimiterStep
      simp [h]
    · have hne : trimmedTimestamps cfg store ip now ≠ [] := by
        intro he
        rw [he] at h
        simp at h
        omega
      have hmem := listMin_mem _ hne
      have hgt : now - cfg.windowMs < listMin (trimmedTimestamps cfg store ip now) := by
        have := List.mem_filter.mp hmem
        exact of_decide_eq_true this.2
      set x := listMin (trimmedTimestamps cfg store ip now) + cfg.windowMs - now with hx
      have hx1 : 1 ≤ x := by omega
      have hneg : (-x) / 1000 < 0 := Int.ediv_neg' (by omega) (by omega)
      unfold jsCeilDiv
      omega
  · intro h
    unfold rateLimiterStep
    simp [Nat.not_le.mpr h]

/-- Witness for C7: five calls in one window all succeed, the sixth is
denied with a positive retry hint (60 s), and a call after the window
elapses succeeds again. -/
theorem c7_witness :
    ((rateLimiterStep ⟨5, 60000⟩ [] "a" 0).1 = .allowed ∧
     (rateLimiterStep ⟨5, 60000⟩ [("a", [0])] "a" 1).1 = .allowed ∧
     (rateLimiterStep ⟨5, 60000⟩ [("a", [0, 1])] "a" 2).1 = .allowed ∧
     (rateLimiterStep ⟨5, 60000⟩ [("a", [0, 1, 2])] "a" 3).1 = .allowed ∧
     (rateLimiterStep ⟨5, 60000⟩ [("a", [0, 1, 2, 3])] "a" 4).1 = .allowed) ∧
    rateLimiterStep ⟨5, 60000⟩ [("a", [0, 1, 2, 3, 4])] "a" 5 =
      (.denied 60, [("a", [0, 1, 2, 3, 4])]) ∧
    (0 : Int) < 60 ∧
    (rateLimiterStep ⟨5, 60000⟩ [("a", [0, 1, 2, 3, 4])] "a" 60005).1 = .allowed := by
  refine ⟨by decide, ?_, by decide, by decide⟩
  have h := (c7_sliding_window ⟨5, 60000⟩ [("a", [0, 1, 2, 3, 4])] "a" 5
    (by decide)).1 (by decide)
  exact h.1.trans (by decide)

/-! ### Distinctness of the denial reasons -/

lemma str_append_assoc (a b c : String) : (a ++ b) ++ c = a ++ (b ++ c) := by
  apply String.ext
  simp [data_append, List.append_assoc]

lemma invalid_ne_unsupported (t : String) (u : ParsedURL) :
    invalidUrlReason t ≠ unsupportedProtocolReason u := by
  unfold invalidUrlReason unsupportedProtocolReason
  rw [str_append_assoc]
  exact append_head_ne _ _ _ _ 'I' 'U'
    "nvalid URL \"".data "nsupported protocol for URL: ".data rfl rfl (by decide)

lemma invalid_ne_missing (t : String) (u : ParsedURL) :
    invalidUrlReason t ≠ hostnameMissingReason u := by
  unfold invalidUrlReason hostnameMissingReason
  rw [str_append_assoc, str_append_assoc]
  exact append_head_ne _ _ _ _ 'I' 'U' "nvalid URL \"".data "RL ".data rfl rfl (by decide)

lemma unsupported_ne_missing (u v : ParsedURL) :
    unsupportedProtocolReason u ≠ hostnameMissingReason v := by
  unfold unsupportedProtocolReason hostnameMissingReason
  rw [str_append_assoc]
  exact append_head2_ne _ _ _ _ 'U' 'n' 'U' 'R'
    "supported protocol for URL: ".data "L ".data rfl rfl (by decide)

lemma invalid_ne_dnsEmpty (t h : String) : invalidUrlReason t ≠ dnsEmptyReason h := by
  unfold invalidUrlReason dnsEmptyReason
  rw [str_append_assoc, str_append_assoc]
  exact append_head_ne _ _ _ _ 'I' 'D' "nvalid URL \"".data "NS lookup for ".data
    rfl rfl (by decide)

lemma unsupported_ne_dnsEmpty (u : ParsedURL) (h : String) :
    unsupportedProtocolReason u ≠ dnsEmptyReason h := by
  unfold unsupportedProtocolReason dnsEmptyReason
  rw [str_append_assoc]
  exact append_head_ne _ _ _ _ 'U' 'D'
    "nsupported protocol for URL: ".data "NS lookup for ".data rfl rfl (by decide)

lemma missing_ne_dnsEmpty (u : ParsedURL) (h : String) :
    hostnameMissingReason u ≠ dnsEmptyReason h := by
  unfold hostnameMissingReason dnsEmptyReason
  rw [str_append_assoc, str_append_assoc]
  exact append_head_ne _ _ _ _ 'U' 'D' "RL ".data "NS lookup for ".data rfl rfl (by decide)

lemma forbiddenIp_ne_dnsEmpty (t h : String) :
    forbiddenIpReason t ≠ dnsEmptyReason h := by
  unfold forbiddenIpReason dnsEmptyReason
  rw [str_append_assoc]
  exact append_head_ne _ _ _ _ 'R' 'D'
    "efusing to access forbidden IP address ".data "NS lookup for ".data rfl rfl (by decide)

lemma failed_ne_dnsEmpty (t m h : String) :
    failedResolveReason t m ≠ dnsEmptyReason h := by
  unfold failedResolveReason dnsEmptyReason
  simp only [str_append_assoc]
  exact append_head_ne _ _ _ _ 'F' 'D'
    "ailed to resolve hostname ".data "NS lookup for ".data rfl rfl (by decide)

lemma forbiddenResolved_ne_dnsEmpty (a t h : String) :
    forbiddenResolvedReason a t ≠ dnsEmptyReason h := by
  unfold forbiddenResolvedReason dnsEmptyReason
  simp only [str_append_assoc]
  exact append_head_ne _ _ _ _ 'R' 'D'
    "efusing to access forbidden resolved address ".data "NS lookup for ".data
    rfl rfl (by decide)

/-! ### C4: IP-literal fast path -/

/-- C4: when the parsed URL has scheme http/https and its hostname is a
valid IP literal, `validateUrl` classifies the literal directly — deny if
forbidden, allow otherwise — independently of the DNS environment and of
the cache, which it returns unchanged (no resolution, no cache access). -/
theorem c4_ip_literal_fast_path (env : DnsEnv) (cache : DnsCache) (s : String)
    (u : ParsedURL) (hu : parseURL s = some u)
    (hp : u.protocol = "http:" ∨ u.protocol = "https:")
    (hip : ipaddrIsValid u.hostname = true) :
    validateUrl env cache s =
      ((if isAddressForbidden u.hostname then .denied (forbiddenIpReason u.hostname)
        else .ok u), cache) ∧
    ∀ (env2 : DnsEnv) (cache2 : DnsCache),
      (validateUrl env2 cache2 s).1 = (validateUrl env cache s).1 := by
  have key : ∀ (e : DnsEnv) (c : DnsCache),
      validateUrl e c s =
        ((if isAddressForbidden u.hostname then .denied (forbiddenIpReason u.hostname)
          else .ok u), c) := by
    intro e c
    have hne : u.hostname ≠ "" := by
      intro h
      rw [h] at hip
      exact absurd hip (by decide)
    unfold validateUrl
    rw [hu]
    rcases hp with hp | hp <;> simp [hp, hne, hip] <;> split <;> rfl
  refine ⟨key env cache, fun env2 cache2 => ?_⟩
  rw [key env2 cache2, key env cache]

/-- Witness for C4: a loopback literal URL is denied and a public literal
URL is allowed, with a DNS environment that always fails and an empty
cache (showing neither is consulted). -/
theorem c4_witness :
    validateUrl ⟨fun _ => .error "no dns", fun _ => .error "no dns"⟩ []
        "http://127.0.0.1/" =
      (.denied (forbiddenIpReason "127.0.0.1"), []) ∧
    validateUrl ⟨fun _ => .error "no dns", fun _ => .error "no dns"⟩ []
        "http://93.184.216.34/" =
      (.ok ⟨"http:", "93.184.216.34", "http://93.184.216.34/"⟩, []) := by
  constructor
  · have h := (c4_ip_literal_fast_path ⟨fun _ => .error "no dns", fun _ => .error "no dns"⟩
      [] "http://127.0.0.1/" ⟨"http:", "127.0.0.1", "http://127.0.0.1/"⟩
      (by decide) (Or.inl rfl) (by decide)).1
    exact h.trans (by decide)
  · have h := (c4_ip_literal_fast_path ⟨fun _ => .error "no dns", fun _ => .error "no dns"⟩
      [] "http://93.184.216.34/" ⟨"http:", "93.184.216.34", "http://93.184.216.34/"⟩
      (by decide) (Or.inl rfl) (by decide)).1
    exact h.trans (by decide)

/-! ### C8: early structured denials -/

/-- C8: `validateUrl` returns a structured denial (never an exception) for
an unparsable URL, for a scheme other than http/https, and for a missing
hostname, in that order with short-circuiting, and the three reasons are
pairwise distinct for all inputs. -/
theorem c8_early_checks (env : DnsEnv) (cache : DnsCache) (s : String) :
    (parseURL s = none → validateUrl env cache s = (.denied (invalidUrlReason s), cache)) ∧
    (∀ u, parseURL s = some u → u.protocol ≠ "http:" → u.protocol ≠ "https:" →
      validateUrl env cache s = (.denied (unsupportedProtocolReason u), cache)) ∧
    (∀ u, parseURL s = some u → (u.protocol = "http:" ∨ u.protocol = "https:") →
      u.hostname = "" →
      validateUrl env cache s = (.denied (hostnameMissingReason u), cache)) ∧
    (∀ t u, invalidUrlReason t ≠ unsupportedProtocolReason u) ∧
    (∀ t u, invalidUrlReason t ≠ hostnameMissingReason u) ∧
    (∀ u v, unsupportedProtocolReason u ≠ hostnameMissingReason v) := by
  refine ⟨?_, ?_, ?_, invalid_ne_unsupported, invalid_ne_missing, unsupported_ne_missing⟩
  · intro h
    unfold validateUrl
    rw [h]
  · intro u hu h1 h2
    unfold validateUrl
    rw [hu]
    simp [h1, h2]
  · intro u hu hp hh
    unfold validateUrl
    rw [hu]
    rcases hp with hp | hp <;> simp [hp, hh]

/-- Witness for C8: the malformed URL, the non-HTTP scheme and a
distinctness instance, at concrete inputs. -/
theorem c8_witness :
    validateUrl ⟨fun _ => .error "e", fun _ => .error "e"⟩ [] "not a url" =
      (.denied (invalidUrlReason "not a url"), []) ∧
    validateUrl ⟨fun _ => .error "e", fun _ => .error "e"⟩ [] "ftp://host/x" =
      (.denied (unsupportedProtocolReason ⟨"ftp:", "host", "ftp://host/x"⟩), []) ∧
    invalidUrlReason "not a url" ≠
      unsupportedProtocolReason ⟨"ftp:", "host", "ftp://host/x"⟩ := by
  refine ⟨?_, ?_, ?_⟩
  · exact (c8_early_checks ⟨fun _ => .error "e", fun _ => .error "e"⟩ [] "not a url").1
      (by decide)
  · exact (c8_early_checks ⟨fun _ => .error "e", fun _ => .error "e"⟩ []
      "ftp://host/x").2.1 ⟨"ftp:", "host", "ftp://host/x"⟩ (by decide) (by decide) (by decide)
  · exact (c8_early_checks ⟨fun _ => .error "e", fun _ => .error "e"⟩ []
      "not a url").2.2.2.1 "not a url" ⟨"ftp:", "host", "ftp://host/x"⟩

/-! ### C5: resolution success/failure semantics -/

lemma settled_nil_iff (r : Except String (List String)) :
    settledAddresses r = [] ↔ (r = .ok [] ∨ ∃ e, r = .error e) := by
  cases r <;> simp [settledAddresses]

/-- C5: resolution succeeds exactly when the two settled attempts
contribute at least one address; it fails exactly when each attempt either
rejected or fulfilled empty; when both attempts rejected the error message
joins the two underlying messages; and on the cache-miss path of
`validateUrl` a resolution error becomes a structured denial wrapping that
message (no exception, no allow). -/
theorem c5_resolution_failure (r4 r6 : Except String (List String)) :
    ((∃ addrs, resolveHostAddresses r4 r6 = .ok addrs) ↔
      settledAddresses r4 ++ settledAddresses r6 ≠ []) ∧
    ((∃ e, resolveHostAddresses r4 r6 = .error e) ↔
      ((r4 = .ok [] ∨ ∃ e4, r4 = .error e4) ∧ (r6 = .ok [] ∨ ∃ e6, r6 = .error e6))) ∧
    (∀ e4 e6, r4 = .error e4 → r6 = .error e6 →
      resolveHostAddresses r4 r6 = .error (e4 ++ "; " ++ e6)) ∧
    (∀ (env : DnsEnv) (cache : DnsCache) (s : String) (u : ParsedURL) (e : String),
      parseURL s = some u → (u.protocol = "http:" ∨ u.protocol = "https:") →
      u.hostname ≠ "" → ipaddrIsValid u.hostname = false →
      dnsCacheGet cache u.hostname = none →
      resolveHostAddresses (env.resolve4 u.hostname) (env.resolve6 u.hostname) = .error e →
      validateUrl env cache s = (.denied (failedResolveReason u.hostname e), cache)) := by
  refine ⟨?_, ?_, ?_, ?_⟩
  · by_cases hl : settledAddresses r4 ++ settledAddresses r6 = []
    · have hneg : ¬ 0 < (settledAddresses r4 ++ settledAddresses r6).length := by
        simp [hl]
      simp only [resolveHostAddresses]
      rw [if_neg hneg]
      simp [hl]
    · have hpos : 0 < (settledAddresses r4 ++ settledAddresses r6).length :=
        List.length_pos.mpr hl
      simp only [resolveHostAddresses]
      rw [if_pos hpos]
      simp [hl]
  · by_cases hl : settledAddresses r4 ++ settledAddresses r6 = []
    · rcases List.append_eq_nil.mp hl with ⟨h4, h6⟩
      have hneg : ¬ 0 < (settledAddresses r4 ++ settledAddresses r6).length := by
        simp [hl]
      simp only [resolveHostAddresses]
      rw [if_neg hneg]
      constructor
      · intro _
        exact ⟨(settled_nil_iff r4).mp h4, (settled_nil_iff r6).mp h6⟩
      · intro _
        exact ⟨_, rfl⟩
    · have hpos : 0 < (settledAddresses r4 ++ settledAddresses r6).length :=
        List.length_pos.mpr hl
      simp only [resolveHostAddresses]
      rw [if_pos hpos]
      constructor
      · rintro ⟨e, he⟩
        exact absurd he (by simp)
      · rintro ⟨h4, h6⟩
        have h4n := (settled_nil_iff r4).mpr h4
        have h6n := (settled_nil_iff r6).mpr h6
        rw [h4n, h6n] at hl
        exact absurd rfl hl
  · intro e4 e6 h4 h6
    subst h4
    subst h6
    rfl
  · intro env cache s u e hu hp hh hip hc hres
    unfold validateUrl
    rw [hu]
    rcases hp with hp | hp <;> simp [hp, hh, hip, hc, hres]

/-- Witness for C5: both resolver attempts time out; the error aggregates
both messages and `validateUrl` surfaces it as a denial. -/
theorem c5_witness :
    resolveHostAddresses (.error "t4") (.error "t6") = .error "t4; t6" ∧
    validateUrl ⟨fun _ => .error "t4", fun _ => .error "t6"⟩ [] "http://example.com/" =
      (.denied (failedResolveReason "example.com" "t4; t6"), []) := by
  have h := c5_resolution_failure (Except.error "t4") (Except.error "t6")
  constructor
  · exact (h.2.2.1 "t4" "t6" rfl rfl).trans (by rfl)
  · exact h.2.2.2 ⟨fun _ => .error "t4", fun _ => .error "t6"⟩ [] "http://example.com/"
      ⟨"http:", "example.com", "http://example.com/"⟩ "t4; t6"
      (by decide) (Or.inl rfl) (by decide) (by decide) (by decide) (by rfl)

/-! ### Shape of validateUrl outcomes (used by C9, C10, C1) -/

lemma cacheWF_set (c : DnsCache) (h : String) (v : List String)
    (hwf : CacheWellFormed c) (hv : v ≠ []) : CacheWellFormed (dnsCacheSet c h v) := by
  intro h2 l hl
  unfold dnsCacheSet dnsCacheGet at hl
  rw [List.find?_cons] at hl
  dsimp only at hl
  cases hb : h == h2
  · rw [hb] at hl
    exact hwf h2 l hl
  · rw [hb] at hl
    have hvl : v = l := by simpa using hl
    rw [← hvl]
    exact hv

lemma validateUrl_snd_cases (env : DnsEnv) (cache : DnsCache) (s : String) :
    (validateUrl env cache s).2 = cache ∨
    ∃ u records, parseURL s = some u ∧
      resolveHostAddresses (env.resolve4 u.hostname) (env.resolve6 u.hostname) =
        .ok records ∧
      (validateUrl env cache s).2 = dnsCacheSet cache u.hostname records := by
  unfold validateUrl
  cases hpu : parseURL s with
  | none => exact Or.inl rfl
  | some u =>
    dsimp only
    split
    · exact Or.inl rfl
    · split
      · exact Or.inl rfl
      · split
        · split
          · exact Or.inl rfl
          · exact Or.inl rfl
        · split
          · exact Or.inl rfl
          · split
            · exact Or.inl rfl
            · rename_i records hres
              exact Or.inr ⟨u, records, rfl, hres, rfl⟩

lemma scanRecords_denied_shape (hst : String) (u : ParsedURL) (l : List String)
    (r : String) (h : scanRecords hst u l = .denied r) :
    ∃ a, r = forbiddenResolvedReason a hst := by
  induction l with
  | nil => exact absurd h (by simp [scanRecords])
  | cons a rest ih =>
    unfold scanRecords at h
    split at h
    · exact ⟨a, (UrlValidationResult.denied.inj h).symm⟩
    · exact ih h

lemma validateUrl_denied_shape (env : DnsEnv) (cache : DnsCache) (s : String)
    (r : String) (hwf : CacheWellFormed cache)
    (h : (validateUrl env cache s).1 = .denied r) :
    (∃ t, r = invalidUrlReason t) ∨ (∃ u, r = unsupportedProtocolReason u) ∨
    (∃ u, r = hostnameMissingReason u) ∨ (∃ t, r = forbiddenIpReason t) ∨
    (∃ t m, r = failedResolveReason t m) ∨
    (∃ a t, r = forbiddenResolvedReason a t) := by
  unfold validateUrl at h
  cases hpu : parseURL s with
  | none =>
    rw [hpu] at h
    exact Or.inl ⟨s, ((UrlValidationResult.denied.inj h).symm)⟩
  | some u =>
    rw [hpu] at h
    dsimp only at h
    split at h
    · exact Or.inr (Or.inl ⟨u, (UrlValidationResult.denied.inj h).symm⟩)
    · split at h
      · exact Or.inr (Or.inr (Or.inl ⟨u, (UrlValidationResult.denied.inj h).symm⟩))
      · split at h
        · split at h
          · exact Or.inr (Or.inr (Or.inr (Or.inl
              ⟨u.hostname, (UrlValidationResult.denied.inj h).symm⟩)))
          · exact absurd h (by simp)
        · split at h
          · rename_i records hrec
            have hne : records ≠ [] := hwf u.hostname records hrec
            unfold checkResolvedRecords at h
            rw [if_neg (fun h0 => hne (List.length_eq_zero.mp h0))] at h
            obtain ⟨a, ha⟩ := scanRecords_denied_shape u.hostname u records r h
            exact Or.inr (Or.inr (Or.inr (Or.inr (Or.inr ⟨a, u.hostname, ha⟩))))
          · split at h
            · rename_i e hres
              exact Or.inr (Or.inr (Or.inr (Or.inr (Or.inl
                ⟨u.hostname, e, (UrlValidationResult.denied.inj h).symm⟩))))
            · rename_i records hres
              have hne : records ≠ [] := resolve_ok_nonempty _ _ _ hres
              unfold checkResolvedRecords at h
              rw [if_neg (fun h0 => hne (List.length_eq_zero.mp h0))] at h
              obtain ⟨a, ha⟩ := scanRecords_denied_shape u.hostname u records r h
              exact Or.inr (Or.inr (Or.inr (Or.inr (Or.inr ⟨a, u.hostname, ha⟩))))

/-! ### C9: the cache only ever holds successful, nonempty resolutions -/

/-- C9: starting from a well-formed cache, `validateUrl` either leaves the
cache untouched or extends it with exactly one entry holding the nonempty
address list of a successful resolution; well-formedness is preserved, so a
failed resolution never creates or updates an entry. -/
theorem c9_cache_success_invariant (env : DnsEnv) (cache : DnsCache) (s : String)
    (hwf : CacheWellFormed cache) :
    CacheWellFormed (validateUrl env cache s).2 ∧
    ((validateUrl env cache s).2 = cache ∨
      ∃ h records,
        resolveHostAddresses (env.resolve4 h) (env.resolve6 h) = .ok records ∧
        records ≠ [] ∧
        (validateUrl env cache s).2 = dnsCacheSet cache h records) := by
  rcases validateUrl_snd_cases env cache s with h | ⟨u, records, hpu, hres, heq⟩
  · exact ⟨by rw [h]; exact hwf, Or.inl h⟩
  · have hne := resolve_ok_nonempty _ _ _ hres
    refine ⟨?_, Or.inr ⟨u.hostname, records, hres, hne, heq⟩⟩
    rw [heq]
    exact cacheWF_set cache u.hostname records hwf hne

/-- Witness for C9: a fresh resolution populates the empty cache with its
nonempty result and the invariant holds afterwards. -/
theorem c9_witness :
    CacheWellFormed (validateUrl ⟨fun _ => .ok ["93.184.216.34"], fun _ => .error "x"⟩
      [] "http://example.com/").2 ∧
    ((validateUrl ⟨fun _ => .ok ["93.184.216.34"], fun _ => .error "x"⟩
        [] "http://example.com/").2 = [] ∨
      ∃ h records,
        resolveHostAddresses ((⟨fun _ => .ok ["93.184.216.34"], fun _ => .error "x"⟩ :
            DnsEnv).resolve4 h)
          ((⟨fun _ => .ok ["93.184.216.34"], fun _ => .error "x"⟩ : DnsEnv).resolve6 h) =
          .ok records ∧
        records ≠ [] ∧
        (validateUrl ⟨fun _ => .ok ["93.184.216.34"], fun _ => .error "x"⟩
          [] "http://example.com/").2 = dnsCacheSet [] h records) :=
  c9_cache_success_invariant ⟨fun _ => .ok ["93.184.216.34"], fun _ => .error "x"⟩ []
    "http://example.com/" (fun h l hl => by simp [dnsCacheGet] at hl)

/-! ### C10: the empty-records denial is unreachable -/

/-- C10: with a well-formed cache, `validateUrl` can never return the
"did not return any addresses" denial — every path reaching that check
(cache hit, or fresh resolution that succeeded) carries a nonempty record
list. -/
theorem c10_empty_branch_unreachable (env : DnsEnv) (cache : DnsCache) (s : String)
    (hwf : CacheWellFormed cache) :
    (∀ h2, (validateUrl env cache s).1 ≠ .denied (dnsEmptyReason h2)) ∧
    (∀ u records, parseURL s = some u →
      (dnsCacheGet cache u.hostname = some records ∨
        resolveHostAddresses (env.resolve4 u.hostname) (env.resolve6 u.hostname) =
          .ok records) →
      records ≠ []) := by
  constructor
  · intro h2 he
    rcases validateUrl_denied_shape env cache s _ hwf he with
      ⟨t, ht⟩ | ⟨u, ht⟩ | ⟨u, ht⟩ | ⟨t, ht⟩ | ⟨t, m, ht⟩ | ⟨a, t, ht⟩
    · exact invalid_ne_dnsEmpty t h2 ht.symm
    · exact unsupported_ne_dnsEmpty u h2 ht.symm
    · exact missing_ne_dnsEmpty u h2 ht.symm
    · exact forbiddenIp_ne_dnsEmpty t h2 ht.symm
    · exact failed_ne_dnsEmpty t m h2 ht.symm
    · exact forbiddenResolved_ne_dnsEmpty a t h2 ht.symm
  · intro u records _ hr
    rcases hr with hr | hr
    · exact hwf _ _ hr
    · exact resolve_ok_nonempty _ _ _ hr

/-- Witness for C10 at a concrete environment and empty cache. -/
theorem c10_witness :
    (validateUrl ⟨fun _ => .ok ["93.184.216.34"], fun _ => .error "x"⟩ []
      "http://example.com/").1 ≠ .denied (dnsEmptyReason "example.com") :=
  (c10_empty_branch_unreachable ⟨fun _ => .ok ["93.184.216.34"], fun _ => .error "x"⟩
    [] "http://example.com/" (fun h l hl => by simp [dnsCacheGet] at hl)).1 "example.com"

/-! ### C1: any-forbidden-wins over the resolved address list -/

lemma scanRecords_eq_find (hst : String) (u : ParsedURL) (l : List String) :
    scanRecords hst u l =
      match l.find? isAddressForbidden with
      | some r => .denied (forbiddenResolvedReason r hst)
      | none => .ok u := by
  induction l with
  | nil => rfl
  | cons a rest ih =>
    by_cases ha : isAddressForbidden a
    · simp [scanRecords, ha, List.find?_cons_of_pos]
    · have ha2 : isAddressForbidden a = false := by
        cases hb : isAddressForbidden a
        · rfl
        · exact absurd hb ha
      simp [scanRecords, ha2, List.find?_cons_of_neg, ih]

/-- C1: on a non-IP-literal hostname whose addresses were obtained (from a
well-formed cache, or by a successful fresh resolution), `validateUrl`
denies naming the first forbidden resolved address when one exists, and
returns `Allowed` with the parsed URL exactly when every resolved address
is allowed. -/
theorem c1_any_forbidden_denies (env : DnsEnv) (cache : DnsCache) (s : String)
    (u : ParsedURL) (records : List String)
    (hwf : CacheWellFormed cache)
    (hu : parseURL s = some u)
    (hp : u.protocol = "http:" ∨ u.protocol = "https:")
    (hh : u.hostname ≠ "")
    (hip : ipaddrIsValid u.hostname = false)
    (hrec : dnsCacheGet cache u.hostname = some records ∨
      (dnsCacheGet cache u.hostname = none ∧
        resolveHostAddresses (env.resolve4 u.hostname) (env.resolve6 u.hostname) =
          .ok records)) :
    ((validateUrl env cache s).1 =
      match records.find? isAddressForbidden with
      | some r => .denied (forbiddenResolvedReason r u.hostname)
      | none => .ok u) ∧
    (∀ r, records.find? isAddressForbidden = some r →
      r ∈ records ∧ isAddressForbidden r = true) ∧
    ((validateUrl env cache s).1 = .ok u ↔
      ∀ r ∈ records, isAddressForbidden r = false) := by
  have hne : records ≠ [] := by
    rcases hrec with hc | ⟨_, hres⟩
    · exact hwf _ _ hc
    · exact resolve_ok_nonempty _ _ _ hres
  have hval : (validateUrl env cache s).1 = checkResolvedRecords u.hostname u records := by
    unfold validateUrl
    rw [hu]
    rcases hrec with hc | ⟨hc, hres⟩
    · rcases hp with hp | hp <;> simp [hp, hh, hip, hc]
    · rcases hp with hp | hp <;> simp [hp, hh, hip, hc, hres]
  have hcheck : checkResolvedRecords u.hostname u records =
      scanRecords u.hostname u records := by
    unfold checkResolvedRecords
    rw [if_neg (fun h0 => hne (List.length_eq_zero.mp h0))]
  rw [hval, hcheck, scanRecords_eq_find]
  refine ⟨rfl, ?_, ?_⟩
  · intro r hr
    exact ⟨List.mem_of_find?_eq_some hr, List.find?_some hr⟩
  · cases hfind : records.find? isAddressForbidden with
    | some r =>
      constructor
      · intro he
        exact absurd he (by simp)
      · intro hall
        have hforb := List.find?_some hfind
        have hmem := List.mem_of_find?_eq_some hfind
        rw [hall r hmem] at hforb
        exact absurd hforb (by decide)
    | none =>
      constructor
      · intro _ r hr
        have hnf := List.find?_eq_none.mp hfind r hr
        cases hb : isAddressForbidden r
        · rfl
        · exact absurd hb hnf
      · intro _
        rfl

/-- Witness for C1: a hostname resolving to one public and one private
address is denied naming the private one; resolving to only public
addresses is allowed. -/
theorem c1_witness :
    (validateUrl ⟨fun _ => .ok ["93.184.216.34", "10.0.0.1"], fun _ => .error "none"⟩
        [] "http://example.com/x").1 =
      .denied (forbiddenResolvedReason "10.0.0.1" "example.com") ∧
    (validateUrl ⟨fun _ => .ok ["93.184.216.34"], fun _ => .error "none"⟩
        [] "http://example.com/x").1 =
      .ok ⟨"http:", "example.com", "http://example.com/x"⟩ := by
  constructor
  · have h := (c1_any_forbidden_denies
      ⟨fun _ => .ok ["93.184.216.34", "10.0.0.1"], fun _ => .error "none"⟩ []
      "http://example.com/x" ⟨"http:", "example.com", "http://example.com/x"⟩
      ["93.184.216.34", "10.0.0.1"]
      (fun h l hl => by simp [dnsCacheGet] at hl)
      (by decide) (Or.inl rfl) (by decide) (by decide)
      (Or.inr ⟨by decide, by rfl⟩)).1
    exact h.trans (by decide)
  · exact (c1_any_forbidden_denies
      ⟨fun _ => .ok ["93.184.216.34"], fun _ => .error "none"⟩ []
      "http://example.com/x" ⟨"http:", "example.com", "http://example.com/x"⟩
      ["93.184.216.34"]
      (fun h l hl => by simp [dnsCacheGet] at hl)
      (by decide) (Or.inl rfl) (by decide) (by decide)
      (Or.inr ⟨by decide, by rfl⟩)).2.2.mpr (by decide)

end MetadataExtractor
